import Mathlib

/-!
Shallow embedding of the narrative retrieval pipeline of the
finance-assistant API, centred on
src/services/narrative_vectorization.py (NarrativeRAGService).

Python strings are modelled as Lean String, Python floats as real
numbers, the OpenAI embedding call as an oracle value (it either raises
or returns a list of embedding vectors), and the in-memory vector store
as a list of entries.  The query handler, aggregation service and
narrative generator exist in the repository only through their tests,
so the definitions for those components are modelled from the spec and
say so in their doc comments.
-/

/-- Python str.lower, character by character (ASCII case folding). -/
def lowerStr (s : String) : String :=
  ⟨s.data.map Char.toLower⟩

/-- Python str.strip: drop leading and trailing whitespace. -/
def pyStrip (s : String) : String :=
  ⟨((s.data.dropWhile Char.isWhitespace).reverse.dropWhile Char.isWhitespace).reverse⟩

/-- Does the character list start with the given pattern? -/
def charsStartWith : List Char → List Char → Bool
  | _, [] => true
  | [], _ :: _ => false
  | a :: as, b :: bs => a == b && charsStartWith as bs

/-- Does the character list contain the pattern as a contiguous run? -/
def charsContain : List Char → List Char → Bool
  | [], pat => pat.isEmpty
  | h :: t, pat => charsStartWith (h :: t) pat || charsContain t pat

/-- Python "pat in hay" on strings: contiguous substring test. -/
def strContains (hay pat : String) : Bool :=
  charsContain hay.data pat.data

/-- ALLOWED_DOCUMENT_TYPES from narrative_vectorization.py. -/
def ALLOWED_DOCUMENT_TYPES : List String :=
  ["monthly_summary", "category_summary", "anomaly", "yearly_overview", "note"]

/-- FORBIDDEN_PATTERNS from narrative_vectorization.py. -/
def FORBIDDEN_PATTERNS : List String :=
  ["transaction", "raw", "individual"]

/-- A narrative document as passed to the service: a Python dict whose
"text" and "type" keys may be absent, plus an optional metadata dict. -/
structure Document where
  text : Option String
  type : Option String
  metadata : Option (List (String × Int))
deriving DecidableEq

/-- One record of NarrativeRAGService.vector_store. -/
structure VectorEntry where
  document : Document
  text : String
  embedding : List ℝ
  type : String
  metadata : List (String × Int)

/-- The dict returned by add_documents (keys that a branch does not set
are modelled as none / []). -/
structure AddResult where
  total : Nat
  added : Nat
  rejected : Nat
  reason : Option String
  reasons : List String
deriving DecidableEq

/-- Outcome of one call to the OpenAI embeddings endpoint: the call
either raises, or returns a list of embedding vectors. -/
inductive EmbedCall where
  | errored (msg : String)
  | returned (embeddings : List (List ℝ))

/-- NarrativeRAGService._validate_document.  The "very short text"
branch only logs a warning and does not affect the returned value. -/
def validate_document (d : Document) : Bool :=
  match d.text, d.type with
  | some text, some ty =>
      let docType := lowerStr ty
      ALLOWED_DOCUMENT_TYPES.contains docType &&
      !(FORBIDDEN_PATTERNS.any fun p => strContains docType p) &&
      !(text == "" || (pyStrip text).length == 0)
  | _, _ => false

/-- The vector-store record appended for one validated document. -/
def mkEntry (d : Document) (e : List ℝ) : VectorEntry :=
  { document := d
    text := d.text.getD ""
    embedding := e
    type := d.type.getD ""
    metadata := d.metadata.getD [] }

/-- The rejection reason string recorded for an invalid document. -/
def rejectionReason (d : Document) : String :=
  "Invalid document type: " ++ d.type.getD "unknown"

/-- The valid subset kept by the validation loop of add_documents, in
submission order. -/
def validDocuments (documents : List Document) : List Document :=
  documents.filter validate_document

/-- The rejection reasons recorded by the validation loop of
add_documents, in submission order. -/
def rejectionReasons (documents : List Document) : List String :=
  (documents.filter fun d => !validate_document d).map rejectionReason

/-- The entries the append loop of add_documents pushes onto the store:
one per returned embedding, paired positionally with the valid
documents, stopping at the shorter of the two lists (Python zip
truncation mirrors the loop stopping at the IndexError). -/
def appendedEntries (documents : List Document) (embs : List (List ℝ)) :
    List VectorEntry :=
  ((validDocuments documents).zip embs).map fun p => mkEntry p.1 p.2

/-- NarrativeRAGService.add_documents.  The store append loop runs
inside the try block: when the provider returns fewer embeddings than
texts, the loop appends one entry per returned embedding and then hits
an IndexError, which the except branch turns into an all-rejected
result without undoing the appends already made. -/
def add_documents (client : Bool) (call : EmbedCall)
    (store : List VectorEntry) (documents : List Document) :
    List VectorEntry × AddResult :=
  if !client then
    (store, ⟨documents.length, 0, documents.length,
             some "OpenAI client not initialized", []⟩)
  else if documents.isEmpty then
    (store, ⟨0, 0, 0, none, []⟩)
  else if (validDocuments documents).isEmpty then
    (store, ⟨documents.length, 0,
             documents.length - (validDocuments documents).length,
             none, rejectionReasons documents⟩)
  else
    match call with
    | .errored msg =>
        (store, ⟨documents.length, 0, documents.length, some msg, []⟩)
    | .returned embs =>
        (store ++ appendedEntries documents embs,
         if embs.length < (validDocuments documents).length then
           ⟨documents.length, 0, documents.length,
            some "list index out of range", []⟩
         else
           ⟨documents.length, (validDocuments documents).length,
            documents.length - (validDocuments documents).length,
            none, rejectionReasons documents⟩)

/-- NarrativeRAGService.clear. -/
def clearStore (_store : List VectorEntry) : List VectorEntry :=
  []

/-- NarrativeRAGService.regenerate_from_narratives: clear, then
add_documents on the emptied store. -/
def regenerate_from_narratives (client : Bool) (call : EmbedCall)
    (store : List VectorEntry) (documents : List Document) :
    List VectorEntry × AddResult :=
  add_documents client call (clearStore store) documents

/-- One retrieval result produced by query. -/
structure QueryResult where
  document : Document
  text : String
  type : String
  metadata : List (String × Int)
  similarity : ℝ

/-- Python sum(a * b for a, b in zip(vec1, vec2)). -/
def dotProduct (vec1 vec2 : List ℝ) : ℝ :=
  ((vec1.zip vec2).map fun p => p.1 * p.2).sum

/-- Python sum(a * a for a in vec) ** 0.5, in exact real arithmetic. -/
noncomputable def magnitude (vec : List ℝ) : ℝ :=
  Real.sqrt ((vec.map fun a => a * a).sum)

/-- NarrativeRAGService._cosine_similarity. -/
noncomputable def cosine_similarity (vec1 vec2 : List ℝ) : ℝ :=
  if magnitude vec1 = 0 ∨ magnitude vec2 = 0 then 0
  else dotProduct vec1 vec2 / (magnitude vec1 * magnitude vec2)

/-- The similarity record built for one candidate inside query. -/
noncomputable def mkQueryResult (queryEmbedding : List ℝ) (item : VectorEntry) :
    QueryResult :=
  { document := item.document
    text := item.text
    type := item.type
    metadata := item.metadata
    similarity := cosine_similarity queryEmbedding item.embedding }

/-- The candidate restriction step of query.  Python tests the filter
with "if doc_type:", so both None and the empty string leave the store
unfiltered. -/
def candidatesFor (store : List VectorEntry) (docType : Option String) :
    List VectorEntry :=
  if docType.getD "" == "" then store
  else store.filter fun item => item.type == docType.getD ""

/-- The comparator realised by Python list.sort(key=similarity,
reverse=True): a may stay before b when b's similarity is not larger. -/
noncomputable def simDescending (a b : QueryResult) : Bool :=
  decide (b.similarity ≤ a.similarity)

/-- NarrativeRAGService.query.  The provider call for the query
embedding is the oracle argument; an exception anywhere in the try
block yields the empty list. -/
noncomputable def query (client : Bool) (call : EmbedCall)
    (store : List VectorEntry) (topK : Nat) (docType : Option String) :
    List QueryResult :=
  if !client then []
  else if store.isEmpty then []
  else
    match call with
    | .errored _ => []
    | .returned [] => []
    | .returned (queryEmbedding :: _) =>
        let candidates := candidatesFor store docType
        if candidates.isEmpty then []
        else
          ((candidates.map (mkQueryResult queryEmbedding)).mergeSort
            simDescending).take topK

/-- NarrativeRAGService.size. -/
def size (store : List VectorEntry) : Nat :=
  store.length

/-- The by-type counting loop of get_stats: a Python dict keyed by the
stored type string, in insertion order. -/
def countByType (store : List VectorEntry) : List (String × Nat) :=
  store.foldl
    (fun acc item =>
      if acc.any fun p => p.1 == item.type then
        acc.map fun p => if p.1 == item.type then (p.1, p.2 + 1) else p
      else
        acc ++ [(item.type, 1)])
    []

/-- The dict returned by get_stats. -/
structure Stats where
  total_documents : Nat
  by_type : List (String × Nat)
  service_ready : Bool
deriving DecidableEq

/-- NarrativeRAGService.get_stats. -/
def get_stats (client : Bool) (store : List VectorEntry) : Stats :=
  if store.isEmpty then ⟨0, [], client⟩
  else ⟨store.length, countByType store, client⟩

/-- One mutating call against the service (C1 quantifies over sequences
of these). -/
inductive StoreOp where
  | add (documents : List Document) (call : EmbedCall)
  | clearOp
  | regen (documents : List Document) (call : EmbedCall)

/-- Effect of one mutating call on the vector store. -/
def runOp (client : Bool) (store : List VectorEntry) : StoreOp → List VectorEntry
  | .add documents call => (add_documents client call store documents).1
  | .clearOp => clearStore store
  | .regen documents call => (regenerate_from_narratives client call store documents).1

/-- Effect of a sequence of mutating calls, left to right. -/
def runOps (client : Bool) (store : List VectorEntry) (ops : List StoreOp) :
    List VectorEntry :=
  ops.foldl (runOp client) store

/-- The whitelist property every stored entry keeps: its document
passed validation, its stored type is in the allowed set once
lowercased, and its stored text is neither empty nor whitespace-only. -/
def entryWhitelisted (e : VectorEntry) : Prop :=
  validate_document e.document = true ∧
  lowerStr e.type ∈ ALLOWED_DOCUMENT_TYPES ∧
  e.text ≠ "" ∧ pyStrip e.text ≠ ""

/-- The ranking contract of query against a candidate result list:
at most topK results, sorted by descending similarity, forming a
highest-similarity selection of the candidates, with ties kept in
candidate (insertion) order. -/
def rankingContract (results cands : List QueryResult) (topK : Nat) : Prop :=
  results.length ≤ topK ∧
  results.Pairwise (fun a b => b.similarity ≤ a.similarity) ∧
  (∃ rest, (results ++ rest).Perm cands ∧
     ∀ r ∈ results, ∀ x ∈ rest, x.similarity ≤ r.similarity) ∧
  ∀ s : ℝ,
    results.filter (fun r => decide (r.similarity = s)) <+:
      cands.filter (fun r => decide (r.similarity = s))

/-- The structured answer produced by RAGQueryHandler.answer_query. -/
structure AnswerOutcome where
  answer : String
  confidence : String
  error : Option String
  sources : List String

/-- Best similarity score among the retrieved results. -/
noncomputable def bestSimilarity : List QueryResult → ℝ
  | [] => 0
  | r :: rs => rs.foldl (fun m x => max m x.similarity) r.similarity

/-- Modelled from the spec: src/services/rag_query_handler.py is not in
the source tree (only tests/test_rag_query_handler.py is), so the
confidence assignment follows spec section 4.4 state 5: similarity at
least 0.85 is high, at least 0.65 is medium, anything lower is low. -/
noncomputable def confidenceFromSimilarity (s : ℝ) : String :=
  if 0.85 ≤ s then "high" else if 0.65 ≤ s then "medium" else "low"

/-- Modelled from the spec: src/services/rag_query_handler.py is not in
the source tree (only its tests are).  This follows the spec section
4.4 state machine: no provider gives confidence none with an error;
empty retrieval with a year falls back to a live-data narrative at
confidence high; empty retrieval without a year gives confidence none;
otherwise the generation call either fails (confidence none plus the
error message) or succeeds with confidence tiered from the best
similarity.  The live-data narrative text itself is outside the claims
and is represented by a fixed placeholder string. -/
noncomputable def answer_query (clientReady : Bool)
    (retrieved : List QueryResult) (year month : Option Int)
    (genCall : Except String String) : AnswerOutcome :=
  if !clientReady then
    ⟨"", "none", some "OpenAI client not initialized", []⟩
  else
    match retrieved with
    | [] =>
        match year, month with
        | some _, _ =>
            ⟨"live financial data narrative", "high", none, ["live financial data"]⟩
        | none, _ =>
            ⟨"I don't have enough information to answer that question.",
             "none", none, []⟩
    | r :: rs =>
        match genCall with
        | .error e => ⟨"", "none", some e, (r :: rs).map QueryResult.text⟩
        | .ok text =>
            ⟨text, confidenceFromSimilarity (bestSimilarity (r :: rs)), none,
             (r :: rs).map QueryResult.text⟩

/-- Modelled from the spec: the ledger rows read by the aggregation
engine, {year, month, signed amount, category}.  Amounts are exact
rationals standing for the Python floats. -/
structure LedgerEntry where
  year : Int
  month : Int
  amount : ℚ
  category : String

/-- The dict returned by get_monthly_totals. -/
structure MonthlyAggregate where
  total_income : ℚ
  total_expense : ℚ
  net_savings : ℚ
deriving DecidableEq

/-- Ledger entries belonging to one (year, month) period. -/
def entriesFor (ledger : List LedgerEntry) (y m : Int) : List LedgerEntry :=
  ledger.filter fun e => e.year == y && e.month == m

/-- Modelled from the spec: src/services/aggregation_service.py is not
in the source tree (only tests/test_aggregation_service.py is).
get_monthly_totals sums the signed amounts of the period's ledger
entries: income is the sum of positive amounts, expense the sum of the
absolute values of negative amounts, and net savings their difference;
a period with no entries yields zeros rather than an error. -/
def get_monthly_totals (ledger : List LedgerEntry) (y m : Int) :
    MonthlyAggregate :=
  let es := entriesFor ledger y m
  let income := ((es.filter fun e => 0 < e.amount).map LedgerEntry.amount).sum
  let expense := ((es.filter fun e => e.amount < 0).map fun e => -e.amount).sum
  ⟨income, expense, income - expense⟩

/-- Modelled from the spec: src/services/narrative_generator.py is not
in the source tree (only tests/test_narrative_generator.py is).
generate_monthly_summary returns no document when the month's aggregate
is entirely zero, otherwise a monthly_summary document; the narrative
text itself is outside the claims and is represented by a fixed
descriptive string. -/
def generate_monthly_summary (ledger : List LedgerEntry) (y m : Int) :
    Option Document :=
  let t := get_monthly_totals ledger y m
  if t.total_income = 0 ∧ t.total_expense = 0 then none
  else
    some ⟨some ("Monthly financial summary for the period " ++ toString y),
          some "monthly_summary", some [("year", y), ("month", m)]⟩

/-- Yearly income and expense as the sums of the twelve monthly totals. -/
def yearlyTotals (ledger : List LedgerEntry) (y : Int) : ℚ × ℚ :=
  (((List.range 12).map fun i =>
      (get_monthly_totals ledger y ((i : Int) + 1)).total_income).sum,
   ((List.range 12).map fun i =>
      (get_monthly_totals ledger y ((i : Int) + 1)).total_expense).sum)

/-- Modelled from the spec: src/services/narrative_generator.py is not
in the source tree (only its tests are).  generate_yearly_overview is
suppressed when the year has no income and no expense, otherwise it
returns a yearly_overview document with a fixed descriptive text. -/
def generate_yearly_overview (ledger : List LedgerEntry) (y : Int) :
    Option Document :=
  let t := yearlyTotals ledger y
  if t.1 = 0 ∧ t.2 = 0 then none
  else
    some ⟨some ("Yearly financial overview for " ++ toString y),
          some "yearly_overview", some [("year", y)]⟩

/-- A valid monthly_summary document used as concrete test data. -/
def docA : Document :=
  ⟨some "In March 2026, total expenses were 3000 and income was 5000.",
   some "monthly_summary", some [("year", 2026), ("month", 3)]⟩

/-- A valid anomaly document used as concrete test data. -/
def docB : Document :=
  ⟨some "In June 2026, spending on home was well above its average.",
   some "anomaly", some [("year", 2026), ("month", 6)]⟩

/-- A document whose type differs from an allowed type only in case. -/
def upperDoc : Document :=
  ⟨some "In March 2026, total expenses were 3000 and income was 5000.",
   some "MONTHLY_SUMMARY", some [("year", 2026), ("month", 3)]⟩

/-- A retrieval result with similarity 0.9 used as concrete test data. -/
noncomputable def res09 : QueryResult :=
  ⟨docA, "In March 2026, total expenses were 3000 and income was 5000.",
   "monthly_summary", [], (0.9 : ℝ)⟩

/-- The sum of squares of a list of reals is nonnegative. -/
theorem sumSquares_nonneg (v : List ℝ) : 0 ≤ (v.map fun a => a * a).sum := by
  induction v with
  | nil => simp
  | cons a t ih =>
      simp only [List.map_cons, List.sum_cons]
      exact add_nonneg (mul_self_nonneg a) ih

/-- The sum of squares is positive when some component is nonzero. -/
theorem sumSquares_pos (v : List ℝ) (a : ℝ) (ha : a ∈ v) (h : a ≠ 0) :
    0 < (v.map fun b => b * b).sum := by
  induction v with
  | nil => cases ha
  | cons x t ih =>
      simp only [List.map_cons, List.sum_cons]
      rcases List.mem_cons.mp ha with rfl | hmem
      · exact add_pos_of_pos_of_nonneg (mul_self_pos.mpr h) (sumSquares_nonneg t)
      · exact add_pos_of_nonneg_of_pos (mul_self_nonneg x) (ih hmem)

/-- The dot product of a vector with itself is its sum of squares. -/
theorem dotProduct_self (v : List ℝ) :
    dotProduct v v = (v.map fun a => a * a).sum := by
  induction v with
  | nil => rfl
  | cons a t ih =>
      simp only [dotProduct, List.zip_cons_cons, List.map_cons, List.sum_cons] at *
      rw [ih]

/-- C6: cosine similarity follows the formula dot(v1,v2)/(|v1|*|v2|)
when both magnitudes are nonzero, returns 0.0 whenever either vector
has zero magnitude, returns 1.0 on any vector with a nonzero component
paired with itself, and returns 0.0 for orthogonal unit vectors. -/
theorem c6_cosine_similarity_policy :
    (∀ v1 v2 : List ℝ, magnitude v1 ≠ 0 → magnitude v2 ≠ 0 →
       cosine_similarity v1 v2 = dotProduct v1 v2 / (magnitude v1 * magnitude v2)) ∧
    (∀ v1 v2 : List ℝ, magnitude v1 = 0 ∨ magnitude v2 = 0 →
       cosine_similarity v1 v2 = 0) ∧
    (∀ v : List ℝ, (∃ a ∈ v, a ≠ 0) → cosine_similarity v v = 1) ∧
    (∀ v1 v2 : List ℝ, magnitude v1 = 1 → magnitude v2 = 1 →
       dotProduct v1 v2 = 0 → cosine_similarity v1 v2 = 0) := by
  refine ⟨?_, ?_, ?_, ?_⟩
  · intro v1 v2 h1 h2
    rw [cosine_similarity, if_neg]
    push_neg
    exact ⟨h1, h2⟩
  · intro v1 v2 h
    rw [cosine_similarity, if_pos h]
  · intro v ⟨a, ha, hane⟩
    have hpos : 0 < (v.map fun b => b * b).sum := sumSquares_pos v a ha hane
    have hmag : magnitude v = Real.sqrt ((v.map fun b => b * b).sum) := rfl
    have hmagpos : 0 < magnitude v := by
      rw [hmag]
      exact Real.sqrt_pos.mpr hpos
    rw [cosine_similarity, if_neg (by push_neg; exact ⟨ne_of_gt hmagpos, ne_of_gt hmagpos⟩)]
    rw [dotProduct_self, hmag, Real.mul_self_sqrt hpos.le]
    exact div_self (ne_of_gt hpos)
  · intro v1 v2 h1 h2 hdot
    rw [cosine_similarity, if_neg (by rw [h1, h2]; norm_num), hdot, zero_div]

/-- C6 witness: concrete instances for each conjunct, at the vectors
[1,0], [0,1] and [0]. -/
theorem c6_cosine_similarity_policy_witness :
    cosine_similarity [(1 : ℝ), 0] [(1 : ℝ), 0] = 1 ∧
    cosine_similarity [(1 : ℝ), 0] [(0 : ℝ), 1] = 0 ∧
    cosine_similarity [(0 : ℝ)] [(1 : ℝ)] = 0 ∧
    cosine_similarity [(1 : ℝ), 0] [(0 : ℝ), 1] =
      dotProduct [(1 : ℝ), 0] [(0 : ℝ), 1] /
        (magnitude [(1 : ℝ), 0] * magnitude [(0 : ℝ), 1]) := by
  have hm1 : magnitude [(1 : ℝ), 0] = 1 := by
    norm_num [magnitude, Real.sqrt_one]
  have hm2 : magnitude [(0 : ℝ), 1] = 1 := by
    norm_num [magnitude, Real.sqrt_one]
  have hm0 : magnitude [(0 : ℝ)] = 0 := by
    norm_num [magnitude, Real.sqrt_zero]
  have hdot : dotProduct [(1 : ℝ), 0] [(0 : ℝ), 1] = 0 := by
    norm_num [dotProduct]
  refine ⟨?_, ?_, ?_, ?_⟩
  · exact c6_cosine_similarity_policy.2.2.1 _ ⟨1, by simp, one_ne_zero⟩
  · exact c6_cosine_similarity_policy.2.2.2 _ _ hm1 hm2 hdot
  · exact c6_cosine_similarity_policy.2.1 _ _ (Or.inl hm0)
  · exact c6_cosine_similarity_policy.1 _ _ (by rw [hm1]; norm_num)
      (by rw [hm2]; norm_num)

/-- C9: if the lowercased type of a document passes the allowed-set
membership check, the forbidden-pattern loop cannot reject it: no
allowed type contains a forbidden substring. -/
theorem c9_forbidden_branch_unreachable (d : Document) (ty : String)
    (_hty : d.type = some ty)
    (h : ALLOWED_DOCUMENT_TYPES.contains (lowerStr ty) = true) :
    (FORBIDDEN_PATTERNS.any fun p => strContains (lowerStr ty) p) = false := by
  have key : ∀ s ∈ ALLOWED_DOCUMENT_TYPES,
      (FORBIDDEN_PATTERNS.any fun p => strContains s p) = false := by decide
  exact key _ (by simpa using h)

/-- C9 witness: the theorem applied to a concrete monthly_summary
document. -/
theorem c9_forbidden_branch_unreachable_witness :
    (FORBIDDEN_PATTERNS.any fun p =>
      strContains (lowerStr "monthly_summary") p) = false :=
  c9_forbidden_branch_unreachable docA "monthly_summary" rfl (by decide)

/-- C7 (amended): when the client is not initialized, add_documents
rejects everything with reason "OpenAI client not initialized" (the
code's literal string) and leaves the store untouched. -/
theorem c7_provider_unavailable_amended (call : EmbedCall)
    (store : List VectorEntry) (documents : List Document) :
    add_documents false call store documents =
      (store, ⟨documents.length, 0, documents.length,
               some "OpenAI client not initialized", []⟩) := rfl

/-- C7 counterexample: the recorded rejection reason is the literal
string "OpenAI client not initialized", not "provider not
initialized" as the claim states. -/
theorem c7_counterexample :
    (add_documents false (.returned []) [] [docA]).2.rejected = 1 ∧
    (add_documents false (.returned []) [] [docA]).2.reason
        = some "OpenAI client not initialized" ∧
    (add_documents false (.returned []) [] [docA]).2.reason
        ≠ some "provider not initialized" := by
  exact ⟨rfl, rfl, by decide⟩

/-- C2: evaluation at the failing input.  Both documents are valid, the
embedding call returns only one embedding for two submitted texts; the
service reports every document rejected (added = 0, rejected = 2,
reason "list index out of range") yet one entry was already appended to
the store and is not rolled back, so the store is not left unchanged. -/
theorem c2_partial_append_on_short_response :
    (add_documents true (.returned [[1]]) [] [docA, docB]).1.length = 1 ∧
    (add_documents true (.returned [[1]]) [] [docA, docB]).1.map VectorEntry.type
      = ["monthly_summary"] ∧
    (add_documents true (.returned [[1]]) [] [docA, docB]).2 =
      ⟨2, 0, 2, some "list index out of range", []⟩ := by
  exact ⟨by decide, by decide, by decide⟩

/-- C10: a document whose type differs from an allowed type only in
case ("MONTHLY_SUMMARY") passes validation and is added, the stored
entry keeps the original-case type, a query filtered by the lowercase
type does not return it, and get_stats counts it under the
original-case key. -/
theorem c10_case_preserving_storage :
    validate_document upperDoc = true ∧
    (add_documents true (.returned [[1]]) [] [upperDoc]).2.added = 1 ∧
    (add_documents true (.returned [[1]]) [] [upperDoc]).1.map VectorEntry.type
      = ["MONTHLY_SUMMARY"] ∧
    query true (.returned [[1]])
      (add_documents true (.returned [[1]]) [] [upperDoc]).1 5
      (some "monthly_summary") = [] ∧
    get_stats true (add_documents true (.returned [[1]]) [] [upperDoc]).1
      = ⟨1, [("MONTHLY_SUMMARY", 1)], true⟩ := by
  exact ⟨by decide, by decide, by decide, rfl, by decide⟩

/-- A period with no ledger entries yields the all-zero aggregate. -/
theorem get_monthly_totals_empty (ledger : List LedgerEntry) (y m : Int)
    (h : ∀ e ∈ ledger, ¬(e.year = y ∧ e.month = m)) :
    get_monthly_totals ledger y m = ⟨0, 0, 0⟩ := by
  have hes : entriesFor ledger y m = [] := by
    rw [entriesFor, List.filter_eq_nil_iff]
    intro e he
    simp only [Bool.and_eq_true, beq_iff_eq]
    intro hc
    exact h e he ⟨hc.1, hc.2⟩
  rw [get_monthly_totals, hes]
  simp

/-- C8: a (year, month) period with no ledger entries gives zero
income, expense and net savings and suppresses the monthly summary; a
year with no ledger entries suppresses the yearly overview. -/
theorem c8_empty_period_degradation :
    (∀ (ledger : List LedgerEntry) (y m : Int),
       (∀ e ∈ ledger, ¬(e.year = y ∧ e.month = m)) →
       get_monthly_totals ledger y m = ⟨0, 0, 0⟩ ∧
       generate_monthly_summary ledger y m = none) ∧
    (∀ (ledger : List LedgerEntry) (y : Int),
       (∀ e ∈ ledger, e.year ≠ y) →
       generate_yearly_overview ledger y = none) := by
  constructor
  · intro ledger y m h
    have ht := get_monthly_totals_empty ledger y m h
    refine ⟨ht, ?_⟩
    rw [generate_monthly_summary, ht]
    simp
  · intro ledger y h
    have hmonth : ∀ m : Int, get_monthly_totals ledger y m = ⟨0, 0, 0⟩ := by
      intro m
      exact get_monthly_totals_empty ledger y m
        (fun e he hc => h e he hc.1)
    have hy : yearlyTotals ledger y = (0, 0) := by
      rw [yearlyTotals]
      simp only [Prod.mk.injEq]
      constructor <;>
      · apply List.sum_eq_zero
        intro x hx
        obtain ⟨i, _, rfl⟩ := List.mem_map.mp hx
        rw [hmonth]
    rw [generate_yearly_overview, hy]
    simp

/-- C8 witness: the empty ledger at period (2026, 3). -/
theorem c8_empty_period_degradation_witness :
    get_monthly_totals [] 2026 3 = ⟨0, 0, 0⟩ ∧
    generate_monthly_summary [] 2026 3 = none ∧
    generate_yearly_overview [] 2026 = none := by
  have h1 := c8_empty_period_degradation.1 [] 2026 3 (by simp)
  exact ⟨h1.1, h1.2, c8_empty_period_degradation.2 [] 2026 (by simp)⟩

/-- What a successful validation guarantees about the document. -/
theorem validate_document_sound (d : Document)
    (h : validate_document d = true) :
    ∃ t ty, d.text = some t ∧ d.type = some ty ∧
      lowerStr ty ∈ ALLOWED_DOCUMENT_TYPES ∧ t ≠ "" ∧ pyStrip t ≠ "" := by
  obtain ⟨text?, type?, md⟩ := d
  cases text? with
  | none => simp [validate_document] at h
  | some t =>
    cases type? with
    | none => simp [validate_document] at h
    | some ty =>
        refine ⟨t, ty, rfl, rfl, ?_⟩
        simp only [validate_document, Bool.and_eq_true, Bool.not_eq_eq_eq_not,
          Bool.not_true, Bool.or_eq_false_iff, beq_eq_false_iff_ne,
          List.any_eq_false] at h
        obtain ⟨⟨hmem, -⟩, hne, hlen⟩ := h
        refine ⟨?_, hne, ?_⟩
        · simpa using hmem
        · intro hs
          rw [hs] at hlen
          simp at hlen

/-- Every entry built from a validated document keeps the whitelist
property. -/
theorem mkEntry_whitelisted (d : Document) (e : List ℝ)
    (h : validate_document d = true) : entryWhitelisted (mkEntry d e) := by
  obtain ⟨t, ty, ht, hty, hmem, hne, hstrip⟩ := validate_document_sound d h
  refine ⟨h, ?_, ?_, ?_⟩ <;> simp [mkEntry, ht, hty, hmem, hne, hstrip]

/-- The store returned by add_documents is the old store, possibly
extended by entries built from validated documents. -/
theorem add_documents_fst (client : Bool) (call : EmbedCall)
    (store : List VectorEntry) (documents : List Document) :
    (add_documents client call store documents).1 = store ∨
    ∃ embs, (add_documents client call store documents).1 =
      store ++ appendedEntries documents embs := by
  unfold add_documents
  split
  · exact Or.inl rfl
  · split
    · exact Or.inl rfl
    · split
      · exact Or.inl rfl
      · match call with
        | .errored msg => exact Or.inl rfl
        | .returned embs => exact Or.inr ⟨embs, rfl⟩

/-- add_documents preserves the whitelist property of every stored
entry, even when a short embedding response leaves partial appends. -/
theorem add_documents_whitelisted (client : Bool) (call : EmbedCall)
    (store : List VectorEntry) (documents : List Document)
    (h : ∀ e ∈ store, entryWhitelisted e) :
    ∀ e ∈ (add_documents client call store documents).1, entryWhitelisted e := by
  intro e he
  rcases add_documents_fst client call store documents with heq | ⟨embs, heq⟩
  · exact h e (heq ▸ he)
  · rw [heq] at he
    rcases List.mem_append.mp he with hl | hr
    · exact h e hl
    · obtain ⟨p, hp, rfl⟩ := List.mem_map.mp hr
      have hp1 := (List.of_mem_zip hp).1
      have hvalid := (List.mem_filter.mp hp1).2
      exact mkEntry_whitelisted _ _ hvalid

/-- Every mutating call preserves the whitelist property. -/
theorem runOp_whitelisted (client : Bool) (store : List VectorEntry)
    (op : StoreOp) (h : ∀ e ∈ store, entryWhitelisted e) :
    ∀ e ∈ runOp client store op, entryWhitelisted e := by
  cases op with
  | add documents call => exact add_documents_whitelisted client call store documents h
  | clearOp => simp [runOp, clearStore]
  | regen documents call =>
      exact add_documents_whitelisted client call [] documents (by simp)

/-- Sequences of mutating calls preserve the whitelist property. -/
theorem runOps_whitelisted (client : Bool) (ops : List StoreOp) :
    ∀ store, (∀ e ∈ store, entryWhitelisted e) →
      ∀ e ∈ runOps client store ops, entryWhitelisted e := by
  induction ops with
  | nil => intro store h; simpa [runOps] using h
  | cons op rest ih =>
      intro store h
      rw [runOps, List.foldl_cons]
      exact ih _ (runOp_whitelisted client store op h)

/-- C1 (amended): after any sequence of add_documents, clear and
regenerate_from_narratives calls starting from the empty store, every
entry holds a document that passed validation: its lowercased type is
in the allowed set and its stored text is neither empty nor
whitespace-only. -/
theorem c1_whitelist_invariant_amended (client : Bool) (ops : List StoreOp)
    (e : VectorEntry) (he : e ∈ runOps client [] ops) : entryWhitelisted e :=
  runOps_whitelisted client ops [] (by simp) e he

/-- C1 witness: one add call leaves exactly the entry built from docA,
and the invariant theorem applies to it. -/
theorem c1_whitelist_invariant_amended_witness :
    mkEntry docA [(1 : ℝ)] ∈ runOps true [] [.add [docA] (.returned [[1]])] ∧
    entryWhitelisted (mkEntry docA [(1 : ℝ)]) := by
  have hmem : mkEntry docA [(1 : ℝ)]
      ∈ runOps true [] [.add [docA] (.returned [[1]])] := by
    rw [show runOps true [] [.add [docA] (.returned [[1]])]
        = [mkEntry docA [(1 : ℝ)]] from rfl]
    exact List.mem_singleton.mpr rfl
  exact ⟨hmem, c1_whitelist_invariant_amended true _ _ hmem⟩

/-- C1 counterexample: adding a document whose type is
"MONTHLY_SUMMARY" (validated case-insensitively) stores an entry whose
type is not a member of the allowed set as literally stated. -/
theorem c1_counterexample :
    (runOps true [] [.add [upperDoc] (.returned [[1]])]).map VectorEntry.type
      = ["MONTHLY_SUMMARY"] ∧
    "MONTHLY_SUMMARY" ∉ ALLOWED_DOCUMENT_TYPES := by
  exact ⟨by decide, by decide⟩

/-- C3: when the generation call succeeds on a nonempty retrieval, the
confidence is high for best similarity at least 0.85, medium between
0.65 and 0.85, low below 0.65; an empty retrieval with no year or
month context yields confidence none. -/
theorem c3_confidence_tiering :
    (∀ (r : QueryResult) (rs : List QueryResult) (year month : Option Int)
       (text : String),
       (0.85 ≤ bestSimilarity (r :: rs) →
         (answer_query true (r :: rs) year month (.ok text)).confidence = "high") ∧
       (0.65 ≤ bestSimilarity (r :: rs) → bestSimilarity (r :: rs) < 0.85 →
         (answer_query true (r :: rs) year month (.ok text)).confidence = "medium") ∧
       (bestSimilarity (r :: rs) < 0.65 →
         (answer_query true (r :: rs) year month (.ok text)).confidence = "low")) ∧
    (∀ genCall : Except String String,
       (answer_query true [] none none genCall).confidence = "none") := by
  constructor
  · intro r rs year month text
    have hq : (answer_query true (r :: rs) year month (.ok text)).confidence
        = confidenceFromSimilarity (bestSimilarity (r :: rs)) := rfl
    refine ⟨?_, ?_, ?_⟩
    · intro h
      rw [hq, confidenceFromSimilarity, if_pos h]
    · intro h1 h2
      rw [hq, confidenceFromSimilarity, if_neg (by linarith), if_pos h1]
    · intro h
      rw [hq, confidenceFromSimilarity, if_neg (by linarith),
        if_neg (by linarith)]
  · intro genCall
    rfl

/-- C3 witness: a single retrieved result of similarity 0.9 yields
high confidence; an empty retrieval with no context yields none. -/
theorem c3_confidence_tiering_witness :
    (answer_query true [res09] none none (.ok "Test answer")).confidence
      = "high" ∧
    (answer_query true [] none none (.ok "Test answer")).confidence
      = "none" := by
  constructor
  · apply (c3_confidence_tiering.1 res09 [] none none "Test answer").1
    have : bestSimilarity [res09] = (0.9 : ℝ) := rfl
    rw [this]
    norm_num
  · exact c3_confidence_tiering.2 _

/-- The comparator simDescending is transitive. -/
theorem simDescending_trans (a b c : QueryResult)
    (hab : simDescending a b = true) (hbc : simDescending b c = true) :
    simDescending a c = true := by
  simp only [simDescending, decide_eq_true_eq] at hab hbc ⊢
  exact le_trans hbc hab

/-- The comparator simDescending is total. -/
theorem simDescending_total (a b : QueryResult) :
    simDescending a b || simDescending b a := by
  simp only [simDescending, Bool.or_eq_true, decide_eq_true_eq]
  exact le_total b.similarity a.similarity

/-- Stability of the Python sort: filtering the sorted list at one
similarity value returns exactly the submission-order filter of the
input list. -/
theorem filter_mergeSort_similarity (l : List QueryResult) (s : ℝ) :
    (l.mergeSort simDescending).filter (fun r => decide (r.similarity = s)) =
      l.filter (fun r => decide (r.similarity = s)) := by
  set p : QueryResult → Bool := fun r => decide (r.similarity = s) with hp
  have hmemp : ∀ r, p r = true → r.similarity = s := by
    intro r hr
    simpa [hp] using hr
  have hpw : (l.filter p).Pairwise (fun a b => simDescending a b = true) := by
    apply List.pairwise_of_forall_mem_list
    intro a ha b hb
    have ha2 := hmemp a (List.mem_filter.mp ha).2
    have hb2 := hmemp b (List.mem_filter.mp hb).2
    simp [simDescending, ha2, hb2]
  have hsub : List.Sublist (l.filter p) (l.mergeSort simDescending) :=
    List.sublist_mergeSort simDescending_trans simDescending_total hpw
      (List.filter_sublist l)
  have hself : (l.filter p).filter p = l.filter p :=
    List.filter_eq_self.mpr fun a ha => (List.mem_filter.mp ha).2
  have hsub2 : List.Sublist (l.filter p) ((l.mergeSort simDescending).filter p) := by
    have h2 := hsub.filter p
    rwa [hself] at h2
  have hperm : List.Perm ((l.mergeSort simDescending).filter p) (l.filter p) :=
    (List.mergeSort_perm l simDescending).filter p
  exact (hsub2.eq_of_length hperm.length_eq.symm).symm

/-- Taking the first topK elements of the stable descending sort
satisfies the full ranking contract. -/
theorem rankingContract_take_mergeSort (l : List QueryResult) (k : Nat) :
    rankingContract ((l.mergeSort simDescending).take k) l k := by
  have hsorted : (l.mergeSort simDescending).Pairwise
      (fun a b => simDescending a b = true) :=
    List.sorted_mergeSort simDescending_trans simDescending_total l
  refine ⟨?_, ?_, ?_, ?_⟩
  · rw [List.length_take]
    exact Nat.min_le_left _ _
  · have hsub := hsorted.sublist (List.take_sublist k _)
    exact hsub.imp fun h => by
      simpa [simDescending, decide_eq_true_eq] using h
  · refine ⟨(l.mergeSort simDescending).drop k, ?_, ?_⟩
    · rw [List.take_append_drop]
      exact List.mergeSort_perm l simDescending
    · intro r hr x hx
      have hsplit := hsorted
      rw [← List.take_append_drop k (l.mergeSort simDescending)] at hsplit
      have hcross := (List.pairwise_append.mp hsplit).2.2 r hr x hx
      simpa [simDescending, decide_eq_true_eq] using hcross
  · intro s
    have hpre : (l.mergeSort simDescending).take k <+: l.mergeSort simDescending :=
      ⟨(l.mergeSort simDescending).drop k, List.take_append_drop k _⟩
    have hf := hpre.filter fun r => decide (r.similarity = s)
    rwa [filter_mergeSort_similarity] at hf

/-- Characterization of query when the client is ready and the
embedding call returns at least one vector. -/
theorem query_returned_eq (store : List VectorEntry) (topK : Nat)
    (docType : Option String) (qe : List ℝ) (more : List (List ℝ)) :
    query true (.returned (qe :: more)) store topK docType =
      (((candidatesFor store docType).map (mkQueryResult qe)).mergeSort
        simDescending).take topK := by
  by_cases hs : store = []
  · subst hs
    have hc : candidatesFor [] docType = [] := by
      unfold candidatesFor
      split <;> simp
    rw [hc]
    simp [query]
  · by_cases hc : candidatesFor store docType = []
    · rw [hc]
      simp [query, hs, hc]
    · simp [query, hs, hc]

/-- C5: for every store state, filter, topK and query embedding, query
returns at most topK results, sorted by descending similarity, forming
a highest-similarity selection of the filtered candidates, with ties
kept in insertion order. -/
theorem c5_ranking_contract (store : List VectorEntry) (topK : Nat)
    (docType : Option String) (queryEmbedding : List ℝ)
    (more : List (List ℝ)) :
    rankingContract
      (query true (.returned (queryEmbedding :: more)) store topK docType)
      ((candidatesFor store docType).map (mkQueryResult queryEmbedding))
      topK := by
  rw [query_returned_eq]
  exact rankingContract_take_mergeSort _ topK

/-- A non-None, non-empty type filter restricts the candidates to the
entries with exactly that stored type. -/
theorem candidatesFor_some_ne (store : List VectorEntry) (t : String)
    (h : t ≠ "") :
    candidatesFor store (some t) = store.filter fun item => item.type == t := by
  unfold candidatesFor
  simp [h]

/-- C4 (amended): with a non-None and non-empty type filter every
returned result has exactly the filter type, and query returns the
empty list (never an error) when the client is unavailable, when the
store is empty, or when no candidate matches the filter. -/
theorem c4_type_filter_purity_amended :
    (∀ (client : Bool) (call : EmbedCall) (store : List VectorEntry)
       (topK : Nat) (t : String), t ≠ "" →
       ∀ r ∈ query client call store topK (some t), r.type = t) ∧
    (∀ (call : EmbedCall) (store : List VectorEntry) (topK : Nat)
       (docType : Option String), query false call store topK docType = []) ∧
    (∀ (client : Bool) (call : EmbedCall) (topK : Nat)
       (docType : Option String), query client call [] topK docType = []) ∧
    (∀ (call : EmbedCall) (store : List VectorEntry) (topK : Nat)
       (t : String), t ≠ "" →
       (store.filter fun item => item.type == t) = [] →
       query true call store topK (some t) = []) := by
  refine ⟨?_, ?_, ?_, ?_⟩
  · intro client call store topK t ht r hr
    cases client with
    | false => simp [query] at hr
    | true =>
        match call with
        | .errored msg => simp [query, ite_self] at hr
        | .returned [] => simp [query, ite_self] at hr
        | .returned (qe :: more) =>
            rw [query_returned_eq] at hr
            have hr2 := List.mem_of_mem_take hr
            have hr3 := List.mem_mergeSort.mp hr2
            obtain ⟨item, hitem, rfl⟩ := List.mem_map.mp hr3
            rw [candidatesFor_some_ne store t ht] at hitem
            simpa [mkQueryResult] using (List.mem_filter.mp hitem).2
  · intro call store topK docType
    rfl
  · intro client call topK docType
    cases client <;> rfl
  · intro call store topK t ht hfilt
    match call with
    | .errored msg => simp [query, ite_self]
    | .returned [] => simp [query, ite_self]
    | .returned (qe :: more) =>
        rw [query_returned_eq, candidatesFor_some_ne store t ht, hfilt]
        simp

/-- C4 counterexample: the filter some "" is not None, yet Python
treats the empty string as falsy and skips filtering, so query returns
a result whose type "monthly_summary" differs from the filter "". -/
theorem c4_counterexample :
    (query true (.returned [[1]]) [mkEntry docA [1]] 5 (some "")).map
      QueryResult.type = ["monthly_summary"] ∧
    ("monthly_summary" : String) ≠ "" := by
  constructor
  · rw [query_returned_eq]
    rw [show candidatesFor [mkEntry docA [1]] (some "")
        = [mkEntry docA [1]] from rfl]
    simp [List.mergeSort_singleton, mkQueryResult, mkEntry, docA]
  · decide

/-- C4 witness: concrete instances of every conjunct of the amended
theorem, at a one-entry store of type monthly_summary. -/
theorem c4_type_filter_purity_amended_witness :
    (mkQueryResult [(1 : ℝ)] (mkEntry docA [1])).type = "monthly_summary" ∧
    query false (.returned [[1]]) [mkEntry docA [(1 : ℝ)]] 5 none = [] ∧
    query true (.returned [[1]]) [] 5 none = [] ∧
    query true (.returned [[1]]) [mkEntry docA [(1 : ℝ)]] 5 (some "anomaly")
      = [] := by
  have hmem : mkQueryResult [(1 : ℝ)] (mkEntry docA [1]) ∈
      query true (.returned [[1]]) [mkEntry docA [1]] 5
        (some "monthly_summary") := by
    rw [query_returned_eq, candidatesFor_some_ne _ _ (by decide),
      show ([mkEntry docA [(1 : ℝ)]].filter fun item =>
        item.type == "monthly_summary") = [mkEntry docA [(1 : ℝ)]] from rfl]
    simp [List.mergeSort_singleton]
  refine ⟨c4_type_filter_purity_amended.1 true _ _ 5 _ (by decide) _ hmem,
    c4_type_filter_purity_amended.2.1 _ _ 5 none,
    c4_type_filter_purity_amended.2.2.1 true _ 5 none,
    c4_type_filter_purity_amended.2.2.2 _ _ 5 _ (by decide) rfl⟩
